import Mathlib

/-!
Verification development for the endless-pdf-light-conversion service.

The service is an Express application over the pdf-lib library, with a
watermark endpoint (`POST /pdf/watermark`), metadata read and write
endpoints (`POST /pdf/metadata/get`, `POST /pdf/metadata/set`) and a
provenance stamper (`addEndlessForgeMetadata`).  The repository contains
two variants of the route handlers (`index.js` and an unnamed sibling
file); where the two differ, both are embedded and the suffix `Idx`
marks the `index.js` variant.

The pdf-lib document object is external; it is modelled by the `PdfDoc`
structure whose fields stand for the library's structured accessors
(`getTitle`/`setTitle`, ...) and for the raw Info dictionary reached
through the trailer.  JavaScript primitives used by the handlers
(`parseFloat`, `parseInt(_, 16)`, `String.prototype.split`, `trim`,
truthiness, `Date.UTC`, `Date.prototype.toISOString`) are given explicit
executable models below.
-/

/-! ## JavaScript string primitives -/

/-- Truthiness of an optional string-valued multipart body field:
`undefined` and the empty string are falsy, every other string truthy. -/
def truthyS (o : Option String) : Bool := o.getD "" != ""

/-- Boolean prefix test on character lists (JS `String.prototype.startsWith`). -/
def strStarts : List Char → List Char → Bool
  | [], _ => true
  | _ :: _, [] => false
  | a :: as, b :: bs => a = b && strStarts as bs

/-- JS `s.startsWith(pre)`. -/
def strStartsWith (pre s : String) : Bool := strStarts pre.data s.data

/-- Substring occurrence on character lists (JS `String.prototype.includes`). -/
def strIncludesL (sub : List Char) : List Char → Bool
  | [] => sub.isEmpty
  | c :: t => strStarts sub (c :: t) || strIncludesL sub t

/-- JS `s.includes(sub)`. -/
def strIncludes (s sub : String) : Bool := strIncludesL sub.data s.data

/-- JS `s.split(",")` on character lists: list of comma-free segments. -/
def splitCommaL : List Char → List (List Char)
  | [] => [[]]
  | c :: t =>
    match splitCommaL t with
    | h :: r => if c = ',' then [] :: h :: r else (c :: h) :: r
    | [] => [[]]

/-- JS `s.split(",")`. -/
def jsSplitComma (s : String) : List String := (splitCommaL s.data).map String.mk

/-- White space recognised by the JS `trim` / numeric-parsing primitives. -/
def jsWhitespace (c : Char) : Bool :=
  c = ' ' || c = '\t' || c = '\n' || c = '\r' || c = '\x0b' || c = '\x0c'

/-- JS `String.prototype.trim`. -/
def jsTrim (s : String) : String :=
  String.mk (((s.data.dropWhile jsWhitespace).reverse.dropWhile jsWhitespace).reverse)

/-! ## JavaScript numeric parsing -/

/-- Value of a list of decimal digit characters. -/
def digitsVal (l : List Char) : ℕ := l.foldl (fun a c => a * 10 + (c.toNat - 48)) 0

/-- Scanner part of the JS `parseFloat` model: longest numeric prefix
(optional sign, integer part, optional fractional part), returned as
(sign, integer value, fraction value, fraction length); `none` models the
result `NaN`. -/
def parseFloatParts (s : String) : Option (Bool × ℕ × ℕ × ℕ) :=
  let cs := s.data.dropWhile jsWhitespace
  let neg := cs.head? == some '-'
  let cs := if cs.head? == some '-' || cs.head? == some '+' then cs.tail else cs
  let ip := cs.takeWhile Char.isDigit
  let rest := cs.dropWhile Char.isDigit
  let fp := if rest.head? == some '.' then rest.tail.takeWhile Char.isDigit else []
  if ip.isEmpty && fp.isEmpty then none
  else some (neg, digitsVal ip, digitsVal fp, fp.length)

/-- Numeric value of a scanned `parseFloat` prefix. -/
def partsQ : Bool × ℕ × ℕ × ℕ → ℚ
  | (neg, i, f, k) => (if neg then -1 else 1) * ((i : ℚ) + (f : ℚ) / (10 : ℚ) ^ k)

/-- Model of JS `parseFloat`; `none` models the result `NaN`. -/
def parseFloatQ (s : String) : Option ℚ := (parseFloatParts s).map partsQ

/-- Hexadecimal digit value (JS `parseInt` with radix 16). -/
def hexDigitVal (c : Char) : Option ℕ :=
  if '0' ≤ c && c ≤ '9' then some (c.toNat - 48)
  else if 'a' ≤ c && c ≤ 'f' then some (c.toNat - 87)
  else if 'A' ≤ c && c ≤ 'F' then some (c.toNat - 55)
  else none

/-- Model of JS `parseInt(s, 16)`: optional sign, optional `0x` prefix,
longest hexadecimal-digit prefix; `none` models the result `NaN`. -/
def parseIntHex (s : String) : Option ℤ :=
  let cs := s.data.dropWhile jsWhitespace
  let sgn : ℤ := if cs.head? = some '-' then -1 else 1
  let cs := if cs.head? = some '-' || cs.head? = some '+' then cs.tail else cs
  let cs := match cs with
    | '0' :: 'x' :: t => t
    | '0' :: 'X' :: t => t
    | _ => cs
  let ds := cs.takeWhile (fun c => (hexDigitVal c).isSome)
  if ds.isEmpty then none
  else some (sgn * ds.foldl (fun a c => a * 16 + ((hexDigitVal c).getD 0 : ℤ)) 0)

/-! ## Watermark opacity

`part_000`:
  `const rawOpacity = parseFloat(req.body.opacity);`
  `const opacity = isNaN(rawOpacity) ? 0.3 : Math.min(Math.max(rawOpacity, 0), 1);`
`index.js`:
  `const opacity = Math.min(Math.max(parseFloat(req.body.opacity) || 0.3, 0), 1);`
-/

/-- Effective opacity computed by the `part_000` watermark handler. -/
def opacityP0 (body : Option String) : ℚ :=
  match body.bind parseFloatQ with
  | none => 3 / 10
  | some q => min (max q 0) 1

/-- Effective opacity computed by the `index.js` watermark handler; note the
JS `||` falls back to the default on every falsy parse result, `0` included. -/
def opacityIdx (body : Option String) : ℚ :=
  let raw : ℚ :=
    match body.bind parseFloatQ with
    | none => 3 / 10
    | some q => if q = 0 then 3 / 10 else q
  min (max raw 0) 1

/-! ## Hex colour conversion

Source (identical in both files):
  `const bigint = parseInt(hex.replace("#", ""), 16);`
  `return rgb(((bigint >> 16) & 255) / 255, ((bigint >> 8) & 255) / 255, (bigint & 255) / 255);`
JS bitwise operators coerce through ToInt32, sending `NaN` to `0`; masking
with 255 makes the signed/unsigned distinction irrelevant, so the model
works with the residue modulo 2^32.
-/

/-- A colour with channels in `[0,1]`, as produced by pdf-lib's `rgb`. -/
structure Rgb where
  r : ℚ
  g : ℚ
  b : ℚ
deriving DecidableEq

/-- JS ToUint32 coercion applied to a `parseInt` result (`NaN` becomes 0). -/
def toUint32 : Option ℤ → ℕ
  | none => 0
  | some z => (z % 4294967296).toNat

/-- JS `s.replace("#", "")`: only the first occurrence is replaced. -/
def removeFirst (c : Char) : List Char → List Char
  | [] => []
  | x :: t => if x = c then t else x :: removeFirst c t

/-- The 24-bit (after ToUint32 coercion) integer scanned from a colour string:
`parseInt(hex.replace("#", ""), 16)` coerced by the bitwise operators. -/
def hexBigint (hex : String) : ℕ :=
  toUint32 (parseIntHex (String.mk (removeFirst '#' hex.data)))

/-- Extraction of one channel byte: `(bigint >> shift) & 255`. -/
def rgbChannel (n shift : ℕ) : ℕ := (n >>> shift) &&& 255

/-- The watermark handler's `hexToRgb`.  Total: it never throws. -/
def hexToRgb (hex : String) : Rgb :=
  { r := (rgbChannel (hexBigint hex) 16 : ℚ) / 255,
    g := (rgbChannel (hexBigint hex) 8 : ℚ) / 255,
    b := (rgbChannel (hexBigint hex) 0 : ℚ) / 255 }

/-! ## PDF date parsing and ISO-8601 rendering

Source (`parsePdfDate` in the metadata/get handler):
  `const match = str.match(/^D:(\d{4})(\d{2})(\d{2})(\d{2})(\d{2})(\d{2})/);`
  `if (!match) return null;`
  `return new Date(Date.UTC(y, m - 1, d, h, min, s)).toISOString();`
The ECMAScript `Date.UTC`/`toISOString` pair is modelled with the proleptic
Gregorian civil-calendar conversions (floor division throughout, as the
ECMAScript specification's mathematical operators demand), including the
`Date.UTC` mapping of two-digit years 0..99 to 1900..1999 and the rollover
of out-of-range month/day/time components.
-/

/-- Day number (days since 1970-01-01) of a civil date; `m` is 1-based. -/
def daysFromCivil (y : ℤ) (m d : ℕ) : ℤ :=
  let y2 : ℤ := if m ≤ 2 then y - 1 else y
  let era : ℤ := Int.fdiv y2 400
  let yoe : ℕ := (y2 - era * 400).toNat
  let mp : ℕ := if m > 2 then m - 3 else m + 9
  let doy : ℕ := (153 * mp + 2) / 5 + d - 1
  let doe : ℕ := yoe * 365 + yoe / 4 - yoe / 100 + doy
  era * 146097 + (doe : ℤ) - 719468

/-- Civil date (year, 1-based month, day) of a day number. -/
def civilFromDays (z : ℤ) : ℤ × ℕ × ℕ :=
  let z2 : ℤ := z + 719468
  let era : ℤ := Int.fdiv z2 146097
  let doe : ℕ := (z2 - era * 146097).toNat
  let yoe : ℕ := (doe - doe / 1460 + doe / 36524 - doe / 146096) / 365
  let doy : ℕ := doe - (365 * yoe + yoe / 4 - yoe / 100)
  let mp : ℕ := (5 * doy + 2) / 153
  let dy : ℕ := doy - (153 * mp + 2) / 5 + 1
  let mo : ℕ := if mp < 10 then mp + 3 else mp - 9
  (if mo ≤ 2 then (yoe : ℤ) + era * 400 + 1 else (yoe : ℤ) + era * 400, mo, dy)

/-- Epoch seconds of `Date.UTC(y, mo - 1, dy, h, mi, se)` for the six numbers
captured by the PDF date regex, including the two-digit-year mapping and the
month rollover of ECMAScript `MakeDay`. -/
def dateUTCseconds (y mo dy h mi se : ℕ) : ℤ :=
  let yr : ℤ := if y ≤ 99 then 1900 + (y : ℤ) else (y : ℤ)
  let m0 : ℤ := (mo : ℤ) - 1
  let ym : ℤ := yr + Int.fdiv m0 12
  let mn : ℕ := (Int.emod m0 12).toNat
  let days : ℤ := daysFromCivil ym (mn + 1) 1 + ((dy : ℤ) - 1)
  ((days * 24 + (h : ℤ)) * 60 + (mi : ℤ)) * 60 + (se : ℤ)

/-- Decimal digits of a natural number (fuel-driven, most significant first). -/
def natDigitsAux : ℕ → ℕ → List Char → List Char
  | 0, _, acc => acc
  | f + 1, n, acc =>
    if n < 10 then Nat.digitChar n :: acc
    else natDigitsAux f (n / 10) (Nat.digitChar (n % 10) :: acc)

/-- Decimal digits of a natural number. -/
def natDigits (n : ℕ) : List Char := natDigitsAux (n + 1) n []

/-- Left-pad with zeros to the given width. -/
def padZeros (w : ℕ) (l : List Char) : List Char := List.replicate (w - l.length) '0' ++ l

/-- ISO-8601 rendering `YYYY-MM-DDTHH:MM:SS.000Z` of calendar components, with
the ECMAScript expanded-year form for years outside 0..9999. -/
def iso8601 (yy : ℤ) (m2 d2 hh mm2 ss : ℕ) : String :=
  let yearPart : List Char :=
    if 0 ≤ yy ∧ yy ≤ 9999 then padZeros 4 (natDigits yy.toNat)
    else (if yy < 0 then ['-'] else ['+']) ++ padZeros 6 (natDigits yy.natAbs)
  String.mk (yearPart ++ '-' :: padZeros 2 (natDigits m2) ++ '-' :: padZeros 2 (natDigits d2) ++
    'T' :: padZeros 2 (natDigits hh) ++ ':' :: padZeros 2 (natDigits mm2) ++
    ':' :: padZeros 2 (natDigits ss) ++ ['.', '0', '0', '0', 'Z'])

/-- `new Date(Date.UTC(y, mo - 1, dy, h, mi, se)).toISOString()`. -/
def isoOfUTC (y mo dy h mi se : ℕ) : String :=
  let t := dateUTCseconds y mo dy h mi se
  let days := Int.fdiv t 86400
  let sod := (t - days * 86400).toNat
  iso8601 (civilFromDays days).1 (civilFromDays days).2.1 (civilFromDays days).2.2
    (sod / 3600) (sod % 3600 / 60) (sod % 60)

/-- The six numbers captured by the regex
`^D:(\d{4})(\d{2})(\d{2})(\d{2})(\d{2})(\d{2})` when the string's first 16
characters match it, `none` otherwise.  By construction the result depends
only on the first 16 characters, exactly like the anchored prefix regex. -/
def pdfDateFields (s : String) : Option (ℕ × ℕ × ℕ × ℕ × ℕ × ℕ) :=
  match s.data.take 16 with
  | 'D' :: ':' :: rest =>
    if rest.length = 14 ∧ rest.all Char.isDigit then
      some (digitsVal (rest.take 4), digitsVal ((rest.drop 4).take 2),
        digitsVal ((rest.drop 6).take 2), digitsVal ((rest.drop 8).take 2),
        digitsVal ((rest.drop 10).take 2), digitsVal ((rest.drop 12).take 2))
    else none
  | _ => none

/-- The metadata/get handler's `parsePdfDate`: JS falsy / non-string guard,
anchored prefix regex, then `Date.UTC` + `toISOString`. -/
def parsePdfDate (str : Option String) : Option String :=
  match str with
  | none => none
  | some s =>
    if s = "" then none
    else
      match pdfDateFields s with
      | none => none
      | some (y, mo, dy, h, mi, se) => some (isoOfUTC y mo dy h mi se)


/-! ## The pdf-lib document model

The document object is external (pdf-lib).  `PdfDoc` models the state the
handlers interact with: the structured accessors (`getTitle`/`setTitle`,
`getAuthor`/`setAuthor`, ..., `getCreationDate`/`setCreationDate`) and the
raw Info dictionary reached through the trailer (`context.trailer` /
`context.lookup`).  `trailerValid` models the provenance stamper's
`!trailer || typeof trailer.get !== 'function'` guard.
-/

/-- A JS `Date` object as stored by `setCreationDate`/`setModificationDate`;
`iso` is what `toISOString()` returns on it. -/
structure JsDate where
  iso : String
deriving DecidableEq

/-- Model of a loaded pdf-lib document. -/
structure PdfDoc where
  title : Option String
  author : Option String
  subject : Option String
  keywords : Option (List String)
  creator : Option String
  producer : Option String
  creationDate : Option JsDate
  modificationDate : Option JsDate
  info : Option (List (String × String))
  trailerValid : Bool
deriving DecidableEq

/-- JS `a || b` on nullable strings: `null`, `undefined` and `""` are falsy. -/
def jsOr (a b : Option String) : Option String :=
  match a with
  | none => b
  | some s => if s = "" then b else some s

/-- The metadata/get handler's `safeGet(key)`: raw Info-dictionary lookup that
yields `null` when the trailer/Info chain is absent or unusable. -/
def safeGet (d : PdfDoc) (key : String) : Option String :=
  match d.info with
  | none => none
  | some entries => List.lookup key entries

/-- The primary metadata group assembled by the metadata/get handler. -/
structure MetaRecord where
  title : Option String
  author : Option String
  subject : Option String
  keywords : Option String
  creator : Option String
  producer : Option String
  creationDate : Option String
  modificationDate : Option String
deriving DecidableEq

/-- Core metadata assembly of the metadata/get handler (`part_000`):
structured accessor `||` raw lookup for the string fields, and
`parsePdfDate(safeGet(..)) || structured date || null` for the two dates. -/
def readMetadata (d : PdfDoc) : MetaRecord :=
  { title := jsOr d.title (safeGet d "Title"),
    author := jsOr d.author (safeGet d "Author"),
    subject := jsOr d.subject (safeGet d "Subject"),
    keywords := jsOr (d.keywords.map (String.intercalate " ")) (safeGet d "Keywords"),
    creator := jsOr d.creator (safeGet d "Creator"),
    producer := jsOr d.producer (safeGet d "Producer"),
    creationDate :=
      jsOr (parsePdfDate (safeGet d "CreationDate")) (jsOr (d.creationDate.map JsDate.iso) none),
    modificationDate :=
      jsOr (parsePdfDate (safeGet d "ModDate")) (jsOr (d.modificationDate.map JsDate.iso) none) }

/-! ## Metadata writer (`POST /pdf/metadata/set`)

`part_000` guards each field with JS truthiness and applies the matching
setter; the eight setters touch pairwise distinct parts of the document, so
the sequence of guarded setters is rendered field by field:
  `if (title) pdfDoc.setTitle(title);` ...
  `if (keywords) pdfDoc.setKeywords(keywords.split(",").map(k => k.trim()));`
  `if (creationDate) pdfDoc.setCreationDate(new Date(creationDate));` ...
The `index.js` variant handles only title/author/subject/keywords/producer
and splits keywords without trimming.  `new Date(string)` is external and is
passed in as `parseDate`.
-/

/-- Fields of the metadata/set request body. -/
structure MetaSetBody where
  title : Option String
  author : Option String
  subject : Option String
  keywords : Option String
  creator : Option String
  producer : Option String
  creationDate : Option String
  modDate : Option String
deriving DecidableEq

/-- The `part_000` metadata/set handler's mutation of the document. -/
def applyMetadata (parseDate : String → JsDate) (b : MetaSetBody) (d : PdfDoc) : PdfDoc :=
  { title := if truthyS b.title then b.title else d.title,
    author := if truthyS b.author then b.author else d.author,
    subject := if truthyS b.subject then b.subject else d.subject,
    keywords :=
      if truthyS b.keywords then some ((jsSplitComma (b.keywords.getD "")).map jsTrim)
      else d.keywords,
    creator := if truthyS b.creator then b.creator else d.creator,
    producer := if truthyS b.producer then b.producer else d.producer,
    creationDate :=
      if truthyS b.creationDate then some (parseDate (b.creationDate.getD ""))
      else d.creationDate,
    modificationDate :=
      if truthyS b.modDate then some (parseDate (b.modDate.getD "")) else d.modificationDate,
    info := d.info,
    trailerValid := d.trailerValid }

/-- The `index.js` metadata/set handler's mutation of the document: only
title/author/subject/keywords/producer, keywords split without trimming. -/
def applyMetadataIdx (b : MetaSetBody) (d : PdfDoc) : PdfDoc :=
  { title := if truthyS b.title then b.title else d.title,
    author := if truthyS b.author then b.author else d.author,
    subject := if truthyS b.subject then b.subject else d.subject,
    keywords :=
      if truthyS b.keywords then some (jsSplitComma (b.keywords.getD "")) else d.keywords,
    creator := d.creator,
    producer := if truthyS b.producer then b.producer else d.producer,
    creationDate := d.creationDate,
    modificationDate := d.modificationDate,
    info := d.info,
    trailerValid := d.trailerValid }

/-! ## Provenance stamper (`utils/pdfMetadata.js`)

  `export async function addEndlessForgeMetadata(pdfDoc) {`
  `  const trailer = pdfDoc.context.trailer;`
  `  if (!trailer || typeof trailer.get !== 'function') { console.warn(...); }`
  `  else {`
  `      let infoDict = infoDictRef ? pdfDoc.context.lookup(infoDictRef) : null;`
  `      ... }`
  `  pdfDoc.setProducer(producer); pdfDoc.setCreator("Endless Forge");`
  `  pdfDoc.setTitle("Generated PDF"); }`
The identifier `infoDictRef` is never declared anywhere in the module, so
evaluating the first statement of the valid-trailer branch raises
`ReferenceError: infoDictRef is not defined` before any Info field is set;
only the invalid-trailer branch reaches the structured setters.
-/

/-- A thrown JS exception. -/
inductive JsError
  | referenceError (name : String)
deriving DecidableEq

/-- The provenance stamper as written in the source. -/
def addEndlessForgeMetadata (d : PdfDoc) : Except JsError PdfDoc :=
  if d.trailerValid then
    Except.error (JsError.referenceError "infoDictRef")
  else
    Except.ok { d with producer := some "Endless Forge PDF API",
                       creator := some "Endless Forge",
                       title := some "Generated PDF" }

/-! ## Watermark image resolution and request validation

`part_000` lines 42-45 (validation) and 69-91 (image resolution); the
`index.js` handler resolves images identically but has no watermark-content
validation.  `fetch`, base64 decoding and the PNG/JPEG decoders inside
`embedPng`/`embedJpg` are external and supplied through `FetchEnv`; a
rejected `fetch` and a failed decode are exceptions, which the handler's
only `try/catch` turns into an HTTP 500.
-/

/-- Image formats the handler can embed. -/
inductive ImgFormat
  | png
  | jpg
deriving DecidableEq

/-- An image embedded into the document. -/
structure EmbeddedImg where
  fmt : ImgFormat
  bytes : List ℕ
deriving DecidableEq

/-- An uploaded multipart file. -/
structure UploadedFile where
  mimetype : String
  buffer : List ℕ
deriving DecidableEq

/-- Exceptions that can escape image resolution. -/
inductive ImgErr
  | fetchRejected
  | decodeFailed
  | typeError
deriving DecidableEq

/-- External collaborators of the watermark handler. -/
structure FetchEnv where
  fetch : String → Option (List ℕ)
  fromBase64 : String → List ℕ
  canPng : List ℕ → Bool
  canJpg : List ℕ → Bool

/-- pdf-lib `embedPng`: throws when the payload is not decodable as PNG. -/
def embedPng (env : FetchEnv) (b : List ℕ) : Except ImgErr EmbeddedImg :=
  if env.canPng b then Except.ok ⟨ImgFormat.png, b⟩ else Except.error ImgErr.decodeFailed

/-- pdf-lib `embedJpg`: throws when the payload is not decodable as JPEG. -/
def embedJpg (env : FetchEnv) (b : List ℕ) : Except ImgErr EmbeddedImg :=
  if env.canJpg b then Except.ok ⟨ImgFormat.jpg, b⟩ else Except.error ImgErr.decodeFailed

/-- JS `image.split(",")[1]`: `none` models the `undefined` index result,
which makes the subsequent `Buffer.from(undefined, "base64")` throw. -/
def dataUrlPayload (s : String) : Option String :=
  match jsSplitComma s with
  | _ :: p :: _ => some p
  | _ => none

/-- The per-request image resolution of the watermark handlers: uploaded
file first, else the `image` body string (data URL, then remote URL, else
nothing), with the format picked by substring tests. -/
def resolveImage (env : FetchEnv) (imageFile : Option UploadedFile) (image : Option String) :
    Except ImgErr (Option EmbeddedImg) :=
  match imageFile with
  | some f =>
    match (if strIncludes f.mimetype "png" then embedPng env f.buffer else embedJpg env f.buffer) with
    | Except.ok i => Except.ok (some i)
    | Except.error e => Except.error e
  | none =>
    match image with
    | none => Except.ok none
    | some s =>
      if s = "" then Except.ok none
      else
        match
          (if strStartsWith "data:image" s then
            match dataUrlPayload s with
            | some p => Except.ok (some (env.fromBase64 p))
            | none => Except.error ImgErr.typeError
          else if strStartsWith "http" s then
            match env.fetch s with
            | some b => Except.ok (some b)
            | none => Except.error ImgErr.fetchRejected
          else (Except.ok none : Except ImgErr (Option (List ℕ)))) with
        | Except.error e => Except.error e
        | Except.ok none => Except.ok none
        | Except.ok (some b) =>
          match (if strIncludes s "png" then embedPng env b else embedJpg env b) with
          | Except.ok i => Except.ok (some i)
          | Except.error e => Except.error e

/-- Outcome of the watermark request pipeline up to compositing.  `proceed`
means the handler reached the page loop; it carries the resolved image and
whether a text watermark will be drawn. -/
inductive WmOutcome
  | badRequestNoPdf
  | badRequestNoContent
  | serverError (e : ImgErr)
  | proceed (img : Option EmbeddedImg) (textDrawn : Bool)
deriving DecidableEq

/-- The `part_000` watermark handler up to compositing: PDF-presence check,
watermark-content validation (before any fetch), then image resolution. -/
def watermarkHandler (env : FetchEnv) (pdfFile : Bool) (text image : Option String)
    (imageFile : Option UploadedFile) : WmOutcome :=
  if !pdfFile then WmOutcome.badRequestNoPdf
  else if !truthyS text && !truthyS image && imageFile.isNone then WmOutcome.badRequestNoContent
  else
    match resolveImage env imageFile image with
    | Except.error e => WmOutcome.serverError e
    | Except.ok img => WmOutcome.proceed img (truthyS text)

/-- The `index.js` watermark handler up to compositing: it has no
watermark-content validation. -/
def watermarkHandlerIdx (env : FetchEnv) (pdfFile : Bool) (text image : Option String)
    (imageFile : Option UploadedFile) : WmOutcome :=
  if !pdfFile then WmOutcome.badRequestNoPdf
  else
    match resolveImage env imageFile image with
    | Except.error e => WmOutcome.serverError e
    | Except.ok img => WmOutcome.proceed img (truthyS text)

/-! ## Shadow parameter

`const { ..., shadow = false, ... } = req.body;` followed by `if (shadow)`
inside the page loop.  Multipart body fields are strings when supplied, so
the destructuring default `false` applies only to an absent field.
-/

/-- A JS value as seen by the shadow branch: the raw body string, or the
destructuring default `false`. -/
inductive JsVal
  | str (s : String)
  | bool (b : Bool)
deriving DecidableEq

/-- JS truthiness on such a value. -/
def truthy : JsVal → Bool
  | JsVal.str s => s != ""
  | JsVal.bool b => b

/-- The `shadow` parameter after destructuring with default `false`. -/
def shadowParam (body : Option String) : JsVal :=
  match body with
  | none => JsVal.bool false
  | some s => JsVal.str s

/-- Whether the `if (shadow)` branch is taken. -/
def shadowEnabled (body : Option String) : Bool := truthy (shadowParam body)

/-! ## Concrete fixtures used by the theorems below -/

/-- A freshly loaded document with no metadata and a usable trailer. -/
def emptyDoc : PdfDoc :=
  { title := none, author := none, subject := none, keywords := none, creator := none,
    producer := none, creationDate := none, modificationDate := none, info := none,
    trailerValid := true }

/-- A document carrying both a raw Info `CreationDate` string and a
structured creation-date accessor value. -/
def docDates : PdfDoc :=
  { emptyDoc with creationDate := some ⟨"1999-01-01T00:00:00.000Z"⟩,
                  info := some [("CreationDate", "D:20230615120000")] }

/-- A document whose only date information is the structured accessor. -/
def docStructuredOnly : PdfDoc :=
  { emptyDoc with creationDate := some ⟨"1999-01-01T00:00:00.000Z"⟩ }

/-- A document with an existing title. -/
def docOldTitle : PdfDoc := { emptyDoc with title := some "Old" }

/-- A metadata/set body with no fields supplied. -/
def emptyBody : MetaSetBody :=
  { title := none, author := none, subject := none, keywords := none, creator := none,
    producer := none, creationDate := none, modDate := none }

/-- An environment whose fetch always rejects and whose decoders always fail. -/
def trivEnv : FetchEnv :=
  { fetch := fun _ => none, fromBase64 := fun _ => [], canPng := fun _ => false,
    canJpg := fun _ => false }

/-- An environment whose fetch succeeds but whose payloads are undecodable. -/
def fetchOkEnv : FetchEnv :=
  { trivEnv with fetch := fun _ => some [1, 2, 3] }

/-! ## Helper lemmas -/

/-- An ISO-8601 rendering is never the empty string. -/
theorem iso8601_ne_empty (yy : ℤ) (m2 d2 hh mm2 ss : ℕ) : iso8601 yy m2 d2 hh mm2 ss ≠ "" := by
  intro h
  have h2 := congrArg String.length h
  simp [iso8601, String.length, List.length_append] at h2

/-- `parsePdfDate` never returns the (falsy) empty string. -/
theorem parsePdfDate_ne_empty (o : Option String) (s : String)
    (h : parsePdfDate o = some s) : s ≠ "" := by
  match o with
  | none => simp [parsePdfDate] at h
  | some str =>
    by_cases hs : str = ""
    · simp [parsePdfDate, hs] at h
    · simp only [parsePdfDate, if_neg hs] at h
      match hf : pdfDateFields str with
      | none => rw [hf] at h; simp at h
      | some (y, mo, dy, hh, mi, se) =>
        rw [hf] at h
        simp only [Option.some.injEq] at h
        subst h
        exact iso8601_ne_empty _ _ _ _ _ _

/-- A byte scaled by 255 lies in the unit interval. -/
theorem byte_div_bounds (k : ℕ) (hk : k ≤ 255) : 0 ≤ (k : ℚ) / 255 ∧ (k : ℚ) / 255 ≤ 1 := by
  constructor
  · positivity
  · rw [div_le_one (by norm_num : (0 : ℚ) < 255)]
    exact_mod_cast hk

/-! ## Claim C2: watermark opacity -/

/-- C2 (counterexample): in the `index.js` watermark handler an opacity input
of `"0"` yields the default 0.3, not 0, because `parseFloat(..) || 0.3`
treats the parse result 0 as falsy; the claimed table demands 0 there. -/
theorem opacity_zero_counterexample :
    opacityIdx (some "0") = 3 / 10 ∧ (3 / 10 : ℚ) ≠ 0 := by
  constructor
  · simp [opacityIdx, parseFloatQ,
      show parseFloatParts "0" = some (false, 0, 0, 0) from by decide, partsQ] <;> norm_num
  · norm_num

/-- C2 (amended): in the `part_000` handler the inputs -5, 0, 0.5, 1, 2 and
"not a number" produce effective opacities 0, 0, 0.5, 1, 1, 0.3 (clamp with
default only on NaN); in the `index.js` handler a parse result of 0 also
falls back to the default, so the same inputs produce 0, 0.3, 0.5, 1, 1,
0.3; in both handlers the effective opacity always lies in [0,1]. -/
theorem opacity_semantics :
    (opacityP0 (some "-5") = 0 ∧ opacityP0 (some "0") = 0 ∧ opacityP0 (some "0.5") = 1 / 2 ∧
      opacityP0 (some "1") = 1 ∧ opacityP0 (some "2") = 1 ∧
      opacityP0 (some "not a number") = 3 / 10 ∧ opacityP0 none = 3 / 10) ∧
    (opacityIdx (some "-5") = 0 ∧ opacityIdx (some "0") = 3 / 10 ∧
      opacityIdx (some "0.5") = 1 / 2 ∧ opacityIdx (some "1") = 1 ∧ opacityIdx (some "2") = 1 ∧
      opacityIdx (some "not a number") = 3 / 10) ∧
    (∀ body : Option String, 0 ≤ opacityP0 body ∧ opacityP0 body ≤ 1) ∧
    (∀ body : Option String, 0 ≤ opacityIdx body ∧ opacityIdx body ≤ 1) := by
  refine ⟨⟨?_, ?_, ?_, ?_, ?_, ?_, ?_⟩, ⟨?_, ?_, ?_, ?_, ?_, ?_⟩, ?_, ?_⟩
  · simp [opacityP0, parseFloatQ,
      show parseFloatParts "-5" = some (true, 5, 0, 0) from by decide, partsQ] <;> norm_num
  · simp [opacityP0, parseFloatQ,
      show parseFloatParts "0" = some (false, 0, 0, 0) from by decide, partsQ] <;> norm_num
  · simp [opacityP0, parseFloatQ,
      show parseFloatParts "0.5" = some (false, 0, 5, 1) from by decide, partsQ] <;> norm_num
  · simp [opacityP0, parseFloatQ,
      show parseFloatParts "1" = some (false, 1, 0, 0) from by decide, partsQ] <;> norm_num
  · simp [opacityP0, parseFloatQ,
      show parseFloatParts "2" = some (false, 2, 0, 0) from by decide, partsQ] <;> norm_num
  · simp [opacityP0, parseFloatQ,
      show parseFloatParts "not a number" = none from by decide]
  · rfl
  · simp [opacityIdx, parseFloatQ,
      show parseFloatParts "-5" = some (true, 5, 0, 0) from by decide, partsQ] <;> norm_num
  · simp [opacityIdx, parseFloatQ,
      show parseFloatParts "0" = some (false, 0, 0, 0) from by decide, partsQ] <;> norm_num
  · simp [opacityIdx, parseFloatQ,
      show parseFloatParts "0.5" = some (false, 0, 5, 1) from by decide, partsQ] <;> norm_num
  · simp [opacityIdx, parseFloatQ,
      show parseFloatParts "1" = some (false, 1, 0, 0) from by decide, partsQ] <;> norm_num
  · simp [opacityIdx, parseFloatQ,
      show parseFloatParts "2" = some (false, 2, 0, 0) from by decide, partsQ] <;> norm_num
  · simp [opacityIdx, parseFloatQ,
      show parseFloatParts "not a number" = none from by decide] <;>
      norm_num [max_def, min_def]
  · intro body
    unfold opacityP0
    cases body.bind parseFloatQ with
    | none => norm_num
    | some q => exact ⟨le_min (le_max_right q 0) zero_le_one, min_le_right _ 1⟩
  · intro body
    unfold opacityIdx
    exact ⟨le_min (le_max_right _ 0) zero_le_one, min_le_right _ 1⟩

/-! ## Claim C6: hexToRgb on malformed input -/

/-- C6 (counterexample): malformed colour strings do not fail with an
InvalidColor error; a fully non-hex string of the right length yields the
colour black, and a wrong-length string yields a colour from its parsed
value (here `"#12"` gives blue 18/255). -/
theorem hexToRgb_malformed_counterexample :
    hexToRgb "zzzzzz" = { r := 0, g := 0, b := 0 } ∧
    hexToRgb "#12" = { r := 0, g := 0, b := 18 / 255 } := by
  constructor
  · simp [hexToRgb, show rgbChannel (hexBigint "zzzzzz") 16 = 0 from by decide,
      show rgbChannel (hexBigint "zzzzzz") 8 = 0 from by decide,
      show rgbChannel (hexBigint "zzzzzz") 0 = 0 from by decide]
  · simp [hexToRgb, show rgbChannel (hexBigint "#12") 16 = 0 from by decide,
      show rgbChannel (hexBigint "#12") 8 = 0 from by decide,
      show rgbChannel (hexBigint "#12") 0 = 18 from by decide] <;> norm_num

/-- C6 (amended): `hexToRgb` is total and never raises.  An input with no
parseable hexadecimal prefix (after removing the first `#`) parses to NaN,
which the bitwise channel extraction coerces to 0, so the function returns
black; every input yields channel values inside [0,1]. -/
theorem hexToRgb_total_semantics :
    (∀ s : String, parseIntHex (String.mk (removeFirst '#' s.data)) = none →
        hexToRgb s = { r := 0, g := 0, b := 0 }) ∧
    (∀ s : String,
        (0 ≤ (hexToRgb s).r ∧ (hexToRgb s).r ≤ 1) ∧
        (0 ≤ (hexToRgb s).g ∧ (hexToRgb s).g ≤ 1) ∧
        (0 ≤ (hexToRgb s).b ∧ (hexToRgb s).b ≤ 1)) := by
  constructor
  · intro s h
    simp [hexToRgb, hexBigint, h, toUint32, rgbChannel, Nat.zero_shiftRight, Nat.zero_and]
  · intro s
    exact ⟨byte_div_bounds _ Nat.and_le_right, byte_div_bounds _ Nat.and_le_right,
      byte_div_bounds _ Nat.and_le_right⟩

/-- C6 (witness): the amended theorem applied at concrete inputs. -/
theorem hexToRgb_total_semantics_witness :
    hexToRgb "nothex" = { r := 0, g := 0, b := 0 } ∧ 0 ≤ (hexToRgb "#abcdef").r :=
  ⟨hexToRgb_total_semantics.1 "nothex" (by decide),
    (hexToRgb_total_semantics.2 "#abcdef").1.1⟩

/-! ## Claim C8: the legacy PDF date parser -/

/-- The anchored regex match depends only on the first 16 characters. -/
theorem pdfDateFields_take (s t : String) (h : s.data.take 16 = t.data.take 16) :
    pdfDateFields s = pdfDateFields t := by
  unfold pdfDateFields
  rw [h]

/-- A string's first 16 characters are empty exactly when it is empty. -/
theorem take16_empty (s : String) : s.data.take 16 = [] ↔ s = "" := by
  obtain ⟨l⟩ := s
  cases l with
  | nil => simp
  | cons c t =>
    simp only [List.take]
    constructor
    · intro h
      exact absurd h (by simp)
    · intro h
      have h2 := congrArg String.data h
      simp at h2

/-- C8: a string whose first 16 characters match `D:` followed by 14 digits
is parsed as a UTC calendar instant and rendered in ISO-8601 (in particular
`"D:20230615120000"` yields `"2023-06-15T12:00:00.000Z"`); the result
depends only on that prefix, so trailing timezone or fractional data is
ignored; every non-matching string yields null. -/
theorem parsePdfDate_spec :
    parsePdfDate (some "D:20230615120000") = some "2023-06-15T12:00:00.000Z" ∧
    (∀ s : String, pdfDateFields s = none → parsePdfDate (some s) = none) ∧
    (∀ s t : String, s.data.take 16 = t.data.take 16 →
        parsePdfDate (some s) = parsePdfDate (some t)) ∧
    (∀ (s : String) (y mo dy h mi se : ℕ), pdfDateFields s = some (y, mo, dy, h, mi, se) →
        parsePdfDate (some s) = some (isoOfUTC y mo dy h mi se)) := by
  refine ⟨by decide, ?_, ?_, ?_⟩
  · intro s h
    by_cases hs : s = ""
    · simp [parsePdfDate, hs]
    · simp [parsePdfDate, hs, h]
  · intro s t hEq
    by_cases hs : s = ""
    · have h1 : s.data.take 16 = [] := (take16_empty s).2 hs
      have ht : t = "" := (take16_empty t).1 (by rw [← hEq]; exact h1)
      rw [hs, ht]
    · have ht : t ≠ "" := fun hh =>
        hs ((take16_empty s).1 (by rw [hEq]; exact (take16_empty t).2 hh))
      simp only [parsePdfDate, if_neg hs, if_neg ht]
      rw [pdfDateFields_take s t hEq]
  · intro s y mo dy h mi se hf
    by_cases hs : s = ""
    · rw [hs, show pdfDateFields "" = none from rfl] at hf
      exact Option.noConfusion hf
    · simp [parsePdfDate, hs, hf]

/-- C8 (witness): the parser at concrete inputs — a non-matching string, a
matching string with trailing timezone data, and a matching string handed to
the rendering pipeline. -/
theorem parsePdfDate_spec_witness :
    parsePdfDate (some "June 15, 2023") = none ∧
    parsePdfDate (some "D:20230615120000-0500") = parsePdfDate (some "D:20230615120000") ∧
    parsePdfDate (some "D:19991231235959") = some (isoOfUTC 1999 12 31 23 59 59) :=
  ⟨parsePdfDate_spec.2.1 "June 15, 2023" (by decide),
    parsePdfDate_spec.2.2.1 "D:20230615120000-0500" "D:20230615120000" (by decide),
    parsePdfDate_spec.2.2.2 "D:19991231235959" 1999 12 31 23 59 59 (by decide)⟩

/-! ## Claim C3: creation/modification date resolution order -/

/-- C3 (counterexample): on a document whose structured creation-date
accessor yields a value, the normalizer still returns the value parsed from
the raw Info `CreationDate` string, so the structured accessor does not take
priority. -/
theorem metadata_dates_counterexample :
    docDates.creationDate = some ⟨"1999-01-01T00:00:00.000Z"⟩ ∧
    (readMetadata docDates).creationDate = some "2023-06-15T12:00:00.000Z" ∧
    ("2023-06-15T12:00:00.000Z" : String) ≠ "1999-01-01T00:00:00.000Z" := by decide

/-- C3 (amended): for the creation and modification dates the resolution
order is reversed relative to the other fields: the value parsed from the
raw Info date string takes priority, and the structured accessor's ISO
rendering is used only when that parse yields null. -/
theorem metadata_dates_priority (d : PdfDoc) :
    ((parsePdfDate (safeGet d "CreationDate") = none →
        (readMetadata d).creationDate = jsOr (d.creationDate.map JsDate.iso) none) ∧
      (∀ s : String, parsePdfDate (safeGet d "CreationDate") = some s →
        (readMetadata d).creationDate = some s)) ∧
    ((parsePdfDate (safeGet d "ModDate") = none →
        (readMetadata d).modificationDate = jsOr (d.modificationDate.map JsDate.iso) none) ∧
      (∀ s : String, parsePdfDate (safeGet d "ModDate") = some s →
        (readMetadata d).modificationDate = some s)) := by
  refine ⟨⟨?_, ?_⟩, ?_, ?_⟩
  · intro h
    simp [readMetadata, h, jsOr]
  · intro s h
    have hne := parsePdfDate_ne_empty _ _ h
    simp [readMetadata, h, jsOr, hne]
  · intro h
    simp [readMetadata, h, jsOr]
  · intro s h
    have hne := parsePdfDate_ne_empty _ _ h
    simp [readMetadata, h, jsOr, hne]

/-- C3 (witness): the amended theorem at a document carrying both sources
(raw parse wins) and at a document with only the structured accessor
(fallback used). -/
theorem metadata_dates_priority_witness :
    (readMetadata docDates).creationDate = some "2023-06-15T12:00:00.000Z" ∧
    (readMetadata docStructuredOnly).creationDate = some "1999-01-01T00:00:00.000Z" := by
  constructor
  · exact (metadata_dates_priority docDates).1.2 "2023-06-15T12:00:00.000Z" (by decide)
  · exact ((metadata_dates_priority docStructuredOnly).1.1 (by decide)).trans (by decide)

/-! ## Claim C4: the provenance stamper -/

/-- C4 (code bug): on any document with a usable trailer — the normal case —
the stamper's valid-trailer branch reads the undeclared identifier
`infoDictRef` and throws a ReferenceError before setting any field, so the
watermark pipeline's unconditional stamping never completes; only when the
trailer is unusable (the branch that skips the Info dictionary) do the
structured Producer/Creator/Title setters run. -/
theorem addEndlessForgeMetadata_throws :
    addEndlessForgeMetadata emptyDoc = Except.error (JsError.referenceError "infoDictRef") ∧
    addEndlessForgeMetadata { emptyDoc with trailerValid := false } =
      Except.ok { emptyDoc with
        trailerValid := false
        producer := some "Endless Forge PDF API"
        creator := some "Endless Forge"
        title := some "Generated PDF" } :=
  ⟨rfl, rfl⟩

/-! ## Claim C7: metadata writer field semantics -/

/-- C7 (counterexample): a title consisting of one space is empty after
trimming, so by the claim it is absent and must leave the document's title
untouched; the handler's JS-truthiness guard accepts it and overwrites the
existing title `"Old"`. -/
theorem applyMetadata_whitespace_counterexample :
    docOldTitle.title = some "Old" ∧ jsTrim " " = "" ∧
    (applyMetadata (fun s => JsDate.mk s) { emptyBody with title := some " " }
      docOldTitle).title = some " " ∧
    (some " " : Option String) ≠ some "Old" := by decide

/-- C7 (amended): in the `part_000` metadata/set handler, presence is JS
truthiness — any non-empty string, whitespace-only included — and each
present field overwrites the document's value (keywords split on commas with
every token trimmed, dates stored via `new Date`), while an absent or
empty-string field leaves the document's value untouched; the `index.js`
variant splits keywords without trimming and never touches
creator/creationDate/modificationDate. -/
theorem applyMetadata_field_semantics :
    (∀ (pd : String → JsDate) (b : MetaSetBody) (d : PdfDoc),
      (truthyS b.title = true → (applyMetadata pd b d).title = b.title) ∧
      (truthyS b.title = false → (applyMetadata pd b d).title = d.title) ∧
      (truthyS b.author = true → (applyMetadata pd b d).author = b.author) ∧
      (truthyS b.author = false → (applyMetadata pd b d).author = d.author) ∧
      (truthyS b.subject = true → (applyMetadata pd b d).subject = b.subject) ∧
      (truthyS b.subject = false → (applyMetadata pd b d).subject = d.subject) ∧
      (truthyS b.keywords = true →
        (applyMetadata pd b d).keywords = some ((jsSplitComma (b.keywords.getD "")).map jsTrim)) ∧
      (truthyS b.keywords = false → (applyMetadata pd b d).keywords = d.keywords) ∧
      (truthyS b.creator = true → (applyMetadata pd b d).creator = b.creator) ∧
      (truthyS b.creator = false → (applyMetadata pd b d).creator = d.creator) ∧
      (truthyS b.producer = true → (applyMetadata pd b d).producer = b.producer) ∧
      (truthyS b.producer = false → (applyMetadata pd b d).producer = d.producer) ∧
      (truthyS b.creationDate = true →
        (applyMetadata pd b d).creationDate = some (pd (b.creationDate.getD ""))) ∧
      (truthyS b.creationDate = false → (applyMetadata pd b d).creationDate = d.creationDate) ∧
      (truthyS b.modDate = true →
        (applyMetadata pd b d).modificationDate = some (pd (b.modDate.getD ""))) ∧
      (truthyS b.modDate = false →
        (applyMetadata pd b d).modificationDate = d.modificationDate)) ∧
    (∀ (b : MetaSetBody) (d : PdfDoc),
      (truthyS b.keywords = true →
        (applyMetadataIdx b d).keywords = some (jsSplitComma (b.keywords.getD ""))) ∧
      (applyMetadataIdx b d).creator = d.creator ∧
      (applyMetadataIdx b d).creationDate = d.creationDate ∧
      (applyMetadataIdx b d).modificationDate = d.modificationDate) := by
  constructor
  · intro pd b d
    refine ⟨fun h => by simp [applyMetadata, h], fun h => by simp [applyMetadata, h],
      fun h => by simp [applyMetadata, h], fun h => by simp [applyMetadata, h],
      fun h => by simp [applyMetadata, h], fun h => by simp [applyMetadata, h],
      fun h => by simp [applyMetadata, h], fun h => by simp [applyMetadata, h],
      fun h => by simp [applyMetadata, h], fun h => by simp [applyMetadata, h],
      fun h => by simp [applyMetadata, h], fun h => by simp [applyMetadata, h],
      fun h => by simp [applyMetadata, h], fun h => by simp [applyMetadata, h],
      fun h => by simp [applyMetadata, h], fun h => by simp [applyMetadata, h]⟩
  · intro b d
    exact ⟨fun h => by simp [applyMetadataIdx, h], by simp [applyMetadataIdx],
      by simp [applyMetadataIdx], by simp [applyMetadataIdx]⟩

/-- C7 (witness): the amended theorem at concrete inputs — a present title
overwrites, an absent title is kept, keywords are trimmed in `part_000` and
untrimmed in `index.js`. -/
theorem applyMetadata_field_semantics_witness :
    (applyMetadata (fun s => JsDate.mk s) { emptyBody with title := some "T" } emptyDoc).title
      = some "T" ∧
    (applyMetadata (fun s => JsDate.mk s) emptyBody docOldTitle).title = some "Old" ∧
    (applyMetadata (fun s => JsDate.mk s) { emptyBody with keywords := some "a, b" }
      emptyDoc).keywords = some ["a", "b"] ∧
    (applyMetadataIdx { emptyBody with keywords := some "a, b" } emptyDoc).keywords
      = some ["a", " b"] := by
  refine ⟨(applyMetadata_field_semantics.1 _ _ _).1 (by decide),
    (applyMetadata_field_semantics.1 _ _ _).2.1 (by decide), ?_, ?_⟩
  · have h := (applyMetadata_field_semantics.1 (fun s => JsDate.mk s)
      { emptyBody with keywords := some "a, b" } emptyDoc).2.2.2.2.2.2.1 (by decide)
    rw [h]
    decide
  · have h := (applyMetadata_field_semantics.2
      { emptyBody with keywords := some "a, b" } emptyDoc).1 (by decide)
    rw [h]
    decide

/-! ## Claim C9: title round-trip through metadata/set and metadata/get -/

/-- C9: writing a non-empty title through the metadata/set handler and
reading the document back through the metadata/get normalizer yields exactly
that title. -/
theorem metadata_title_roundtrip (pd : String → JsDate) (b : MetaSetBody) (d : PdfDoc)
    (t : String) (hb : b.title = some t) (ht : t ≠ "") :
    (readMetadata (applyMetadata pd b d)).title = some t := by
  simp [readMetadata, applyMetadata, jsOr, hb, truthyS, ht]

/-- C9 (witness): the round-trip at the spec's example title. -/
theorem metadata_title_roundtrip_witness :
    (readMetadata (applyMetadata (fun s => JsDate.mk s)
      { emptyBody with title := some "Report Q1" } emptyDoc)).title = some "Report Q1" :=
  metadata_title_roundtrip _ _ _ "Report Q1" rfl (by decide)

/-! ## Claim C10: the shadow parameter -/

/-- C10: the shadow flag is JS truthiness of the raw body string, so every
non-empty string — `"false"` and `"0"` included — enables the shadow branch,
and only an absent field (destructuring default `false`) or an empty string
disables it. -/
theorem shadow_truthiness :
    (∀ s : String, s ≠ "" → shadowEnabled (some s) = true) ∧
    shadowEnabled (some "false") = true ∧ shadowEnabled (some "0") = true ∧
    shadowEnabled none = false ∧ shadowEnabled (some "") = false := by
  refine ⟨?_, by decide, by decide, rfl, rfl⟩
  intro s hs
  simp [shadowEnabled, shadowParam, truthy, hs]

/-- C10 (witness): the theorem applied at a concrete non-empty string. -/
theorem shadow_truthiness_witness : shadowEnabled (some "no") = true :=
  shadow_truthiness.1 "no" (by decide)

/-! ## Claim C1: remote image fetch failure semantics -/

/-- C1 (counterexample): with a fetch that rejects, resolving a remote image
URL propagates the exception — which the handler's only catch turns into an
HTTP 500 — instead of leaving the image unset and proceeding text-only. -/
theorem resolveImage_fetch_counterexample :
    resolveImage trivEnv none (some "http://img.example/wm.png")
      = Except.error ImgErr.fetchRejected ∧
    (Except.error ImgErr.fetchRejected : Except ImgErr (Option EmbeddedImg))
      ≠ Except.ok none :=
  ⟨rfl, by simp⟩

/-- C1 (amended): only an `image` string that starts with neither the
data-URL prefix nor `http` leaves the image unset so that compositing
proceeds text-only; a rejected remote fetch and an undecodable fetched
payload both propagate as exceptions (HTTP 500) rather than degrading; the
MissingWatermarkContent validation is decided before any fetch, independent
of the fetch environment. -/
theorem resolveImage_failure_semantics :
    (∀ (env : FetchEnv) (s : String), s ≠ "" →
        strStartsWith "data:image" s = false → strStartsWith "http" s = false →
        resolveImage env none (some s) = Except.ok none) ∧
    (∀ (env : FetchEnv) (s : String),
        strStartsWith "data:image" s = false → strStartsWith "http" s = true →
        env.fetch s = none →
        resolveImage env none (some s) = Except.error ImgErr.fetchRejected) ∧
    (∀ (env : FetchEnv) (s : String) (b : List ℕ),
        strStartsWith "data:image" s = false → strStartsWith "http" s = true →
        env.fetch s = some b → env.canPng b = false → env.canJpg b = false →
        resolveImage env none (some s) = Except.error ImgErr.decodeFailed) ∧
    (∀ env : FetchEnv,
        watermarkHandler env true none none none = WmOutcome.badRequestNoContent) := by
  refine ⟨?_, ?_, ?_, fun env => rfl⟩
  · intro env s hne hd hh
    simp [resolveImage, hne, hd, hh]
  · intro env s hd hh hf
    have hne : s ≠ "" := by
      intro h
      subst h
      exact absurd hh (by decide)
    simp [resolveImage, hne, hd, hh, hf]
  · intro env s b hd hh hf hp hj
    have hne : s ≠ "" := by
      intro h
      subst h
      exact absurd hh (by decide)
    cases hinc : strIncludes s "png" with
    | true => simp [resolveImage, hne, hd, hh, hf, hinc, embedPng, hp]
    | false => simp [resolveImage, hne, hd, hh, hf, hinc, embedJpg, hj]

/-- C1 (witness): the amended theorem at concrete inputs — a plain file name
proceeds imageless, a rejected fetch and an undecodable payload error, and
the content validation fires under an arbitrary failing environment. -/
theorem resolveImage_failure_semantics_witness :
    resolveImage trivEnv none (some "watermark.bmp") = Except.ok none ∧
    resolveImage trivEnv none (some "http://img.example/a.png")
      = Except.error ImgErr.fetchRejected ∧
    resolveImage fetchOkEnv none (some "http://img.example/a.png")
      = Except.error ImgErr.decodeFailed ∧
    watermarkHandler trivEnv true none none none = WmOutcome.badRequestNoContent :=
  ⟨resolveImage_failure_semantics.1 trivEnv "watermark.bmp" (by decide) (by decide) (by decide),
    resolveImage_failure_semantics.2.1 trivEnv "http://img.example/a.png"
      (by decide) (by decide) rfl,
    resolveImage_failure_semantics.2.2.1 fetchOkEnv "http://img.example/a.png" [1, 2, 3]
      (by decide) (by decide) rfl rfl rfl,
    resolveImage_failure_semantics.2.2.2 trivEnv⟩

/-! ## Claim C5: missing watermark content -/

/-- C5 (counterexample): the `index.js` watermark handler has no
watermark-content validation: a request with a PDF but neither text, image
body field, nor uploaded image file proceeds to compositing with nothing to
draw instead of returning the 400 watermark-content error. -/
theorem watermark_missing_content_idx_counterexample :
    watermarkHandlerIdx trivEnv true none none none = WmOutcome.proceed none false ∧
    WmOutcome.proceed none false ≠ WmOutcome.badRequestNoContent :=
  ⟨rfl, by decide⟩

/-- C5 (amended): the `part_000` handler rejects a request supplying neither
text, image body field (empty strings are falsy) nor an uploaded image file
with the 400 watermark-content response, before any image resolution; the
`index.js` handler lacks this validation and proceeds to compositing. -/
theorem watermark_missing_content_validation :
    (∀ (env : FetchEnv) (text image : Option String) (file : Option UploadedFile),
        truthyS text = false → truthyS image = false → file = none →
        watermarkHandler env true text image file = WmOutcome.badRequestNoContent) ∧
    watermarkHandlerIdx trivEnv true none none none = WmOutcome.proceed none false := by
  constructor
  · intro env text image file ht hi hf
    subst hf
    simp [watermarkHandler, ht, hi]
  · rfl

/-- C5 (witness): the validation fires on empty-string fields as well. -/
theorem watermark_missing_content_validation_witness :
    watermarkHandler trivEnv true (some "") (some "") none
      = WmOutcome.badRequestNoContent :=
  watermark_missing_content_validation.1 trivEnv (some "") (some "") none
    (by decide) (by decide) rfl
